import Mathlib

/-!
Verification development for the wh_sellsy repository: a Sellsy webhook
listener (Fastify gate pushing events into a BullMQ queue) and a worker that
turns accepted estimates into invoices through the Sellsy v2 API.

The definitions below are a shallow embedding of the JavaScript sources:

  * the JSON-like value model (`JsValue`, `RawObj`) mirrors the dynamic
    objects the worker manipulates, with JavaScript member access,
    truthiness and strict-equality-against-primitive tests made explicit;
  * `cleanDataForApi`, `transformEstimateItemsToInvoiceRows`,
    `isEstimateAccepted`, `createInvoiceFromEstimate`,
    `handleEstimateModification` and `processEvent` embed the functions of
    the same names in src/sellsy/worker/worker.js; the two effectful API
    calls (the estimate GET and the invoice POST) are scripted through an
    `ApiEnv` oracle, and each run returns the job outcome together with the
    trace of outbound API calls;
  * `webhookGate` embeds the POST /webhook/sellsy handler of the gate
    (server variant present in the sources), whose enqueue is scripted by
    an `EnqueueOutcome`;
  * `getTokenStep` / `runGetTokens` embed `SellsyApiClient.getToken`
    together with its single-flight `refreshPromise` protocol, under the
    JavaScript event-loop semantics: the synchronous prologue of each call
    runs atomically, and an in-flight refresh is represented by a promise
    identifier that concurrent callers attach to;
  * `makeApiCall` embeds `SellsyApiClient.makeApiCall` with the per-attempt
    fetch outcomes scripted by a list; it returns the call outcome together
    with the number of fetches performed and the number of token refreshes
    triggered. The credential exchange itself is modelled as succeeding,
    matching the scenarios of the claims about this function.
-/

namespace WhSellsy

/-- JSON-like values as the worker sees them: the dynamic JavaScript values
stored in webhook payloads and API bodies. -/
inductive JsValue where
  | null
  | undefined
  | bool (b : Bool)
  | num (n : Int)
  | str (s : String)
  | arr (elems : List JsValue)
  | obj (fields : List (String × JsValue))

/-- A JavaScript object, as an ordered association list of its entries
(the order `Object.entries` iterates in). -/
abbrev RawObj := List (String × JsValue)

/-- Member access `o[k]` on an object: the first entry with key `k`, and
`undefined` when the key is absent. -/
def jsGet (o : RawObj) (k : String) : JsValue :=
  match o.find? (fun kv => kv.1 == k) with
  | some kv => kv.2
  | none => .undefined

/-- Member access `v.k` on an arbitrary value: fields of objects, and
`undefined` on every non-object (the worker only reads properties that do
not exist on primitives). -/
def jsMember (v : JsValue) (k : String) : JsValue :=
  match v with
  | .obj fields => jsGet fields k
  | _ => .undefined

/-- JavaScript truthiness, as used by the `||` fallbacks and the
`if (!clientId)` test of the worker. -/
def jsTruthy (v : JsValue) : Bool :=
  match v with
  | .null => false
  | .undefined => false
  | .bool b => b
  | .num n => !(n == 0)
  | .str s => !(s == "")
  | .arr _ => true
  | .obj _ => true

/-- The value filter of `cleanDataForApi`:
`value !== null && value !== undefined && value !== ""`. -/
def jsKept (v : JsValue) : Bool :=
  match v with
  | .null => false
  | .undefined => false
  | .str s => !(s == "")
  | _ => true

/-- String conversion as performed by a template literal, for the scalar
values the worker interpolates. -/
def jsToString (v : JsValue) : String :=
  match v with
  | .null => "null"
  | .undefined => "undefined"
  | .bool b => if b then "true" else "false"
  | .num n => toString n
  | .str s => s
  | .arr _ => ""
  | .obj _ => "[object Object]"

/-- The `defaultPropertiesToRemove` list of worker.js. -/
def defaultPropertiesToRemove : List String :=
  ["id", "created", "fiscal_year_id", "number", "public_link", "pdf_link",
   "owner", "date", "delivery_address_id", "invoicing_address_id", "amounts",
   "related", "rows", "status"]

/-- Embedding of `cleanDataForApi(data, propertiesToRemove)` of worker.js:
keeps exactly the entries whose value is neither null, undefined nor the
empty string and whose key is outside the removal set. The guard for
non-object inputs is not needed here because the only call site passes the
webhook estimate object. -/
def cleanDataForApi (data : RawObj) (propertiesToRemove : List String) : RawObj :=
  let allPropertiesToRemove := defaultPropertiesToRemove ++ propertiesToRemove
  data.filter (fun kv => jsKept kv.2 && !(decide (kv.1 ∈ allPropertiesToRemove)))

/-- A product reference on an estimate row (`row.product`). -/
structure ProductRef where
  id : Int
  reference : Option String

/-- A row of the estimate resource fetched from the API, with exactly the
fields `transformEstimateItemsToInvoiceRows` reads. Tax references are
reduced to their id (`row.tax?.id`, `row.tax1?.id`); an absent object or an
absent id is `none`. -/
structure EstimateRow where
  description : Option String
  quantity : Option Int
  unitAmount : Option Int
  unit_amount : Option Int
  tax : Option Int
  tax1 : Option Int
  product : Option ProductRef

/-- An invoice row as built by the worker: `type` is always "single",
`tax_id` and `reference` are present only when the source provided them. -/
structure InvoiceRow where
  type : String
  description : String
  quantity : String
  unit_amount : String
  tax_id : Option Int
  reference : Option String

/-- Truthiness filter for an optional numeric id (`x?.id` used in a
condition): absent ids and the falsy id 0 give nothing. -/
def truthyId (o : Option Int) : Option Int :=
  match o with
  | some i => if i == 0 then none else some i
  | none => none

/-- Embedding of the description fallback
`row.description \x7c\x7c (Ligne index+1)`. -/
def rowDescription (i : Nat) (d : Option String) : String :=
  match d with
  | some s => if s == "" then "Ligne " ++ toString (i + 1) else s
  | none => "Ligne " ++ toString (i + 1)

/-- Embedding of `row.quantity?.toString() \x7c\x7c "1"`. -/
def rowQuantity (q : Option Int) : String :=
  match q with
  | some n => toString n
  | none => "1"

/-- Embedding of `(row.unitAmount \x7c\x7c row.unit_amount \x7c\x7c "0").toString()`:
the number 0 is falsy, so a zero `unitAmount` falls through. -/
def rowUnitAmount (a b : Option Int) : String :=
  match truthyId a with
  | some n => toString n
  | none =>
    match truthyId b with
    | some n => toString n
    | none => "0"

/-- Embedding of the tax choice: `row.tax?.id` first, else `row.tax1?.id`. -/
def rowTaxId (tax tax1 : Option Int) : Option Int :=
  match truthyId tax with
  | some t => some t
  | none => truthyId tax1

/-- Embedding of the product reference:
present only when `row.product?.id` is truthy, with the fallback
`row.product.reference \x7c\x7c prod_id`. -/
def rowReference (p : Option ProductRef) : Option String :=
  match p with
  | some pr =>
    if pr.id == 0 then none
    else
      some (match pr.reference with
        | some r => if r == "" then "prod_" ++ toString pr.id else r
        | none => "prod_" ++ toString pr.id)
  | none => none

/-- One mapped invoice row, at position `i` of the source rows. -/
def invoiceRowOfEstimateRow (i : Nat) (row : EstimateRow) : InvoiceRow :=
  { type := "single",
    description := rowDescription i row.description,
    quantity := rowQuantity row.quantity,
    unit_amount := rowUnitAmount row.unitAmount row.unit_amount,
    tax_id := rowTaxId row.tax row.tax1,
    reference := rowReference row.product }

/-- Index-passing helper for the row map (worker.js uses the map index for
the description fallback). -/
def transformAux (i : Nat) (rows : List EstimateRow) : List InvoiceRow :=
  match rows with
  | [] => []
  | r :: rs => invoiceRowOfEstimateRow i r :: transformAux (i + 1) rs

/-- Embedding of `transformEstimateItemsToInvoiceRows` of worker.js. An
empty input yields the empty list, exactly as the early-return does. -/
def transformEstimateItemsToInvoiceRows (rows : List EstimateRow) : List InvoiceRow :=
  transformAux 0 rows

/-- The estimate resource as fetched by `getEstimateDetails`, with the
fields the worker reads (`id`, `rows`) plus its `status`, which the real
resource carries; absent rows are the empty list, matching the
`fullEstimate.rows \x7c\x7c []` fallback. -/
structure FullEstimate where
  id : Int
  status : String
  rows : List EstimateRow

/-- JSON encoding of a built invoice row, as it appears in the POST body:
the optional fields are present only when set. -/
def invoiceRowToJs (r : InvoiceRow) : JsValue :=
  .obj ([("type", .str r.type), ("description", .str r.description),
         ("quantity", .str r.quantity), ("unit_amount", .str r.unit_amount)]
    ++ (match r.tax_id with | some t => [("tax_id", .num t)] | none => [])
    ++ (match r.reference with | some s => [("reference", .str s)] | none => []))

/-- The test of the find callback, `r.type === "company"`, applied to the
value read for `type`. -/
def isCompanyTag (v : JsValue) : Bool :=
  match v with
  | .str s => s == "company"
  | _ => false

/-- Member access `v.k` with the throwing behaviour of JavaScript: reading
a property of null or undefined throws a TypeError; other primitives
auto-box and simply lack the property; objects look the key up. -/
def jsMemberE (v : JsValue) (k : String) : Except String JsValue :=
  match v with
  | .null => .error ("cannot read properties of null reading " ++ k)
  | .undefined => .error ("cannot read properties of undefined reading " ++ k)
  | .obj fields => .ok (jsGet fields k)
  | _ => .ok .undefined

/-- The `Array.prototype.find` run of the callback
`(r) => r.type === "company"`: each element has its `type` property read
with the throwing member access, so a null or undefined element aborts the
scan with a TypeError before any later element is looked at. -/
def findCompany (rs : List JsValue) : Except String (Option JsValue) :=
  match rs with
  | [] => .ok none
  | r :: tail =>
    match jsMemberE r "type" with
    | .error m => .error m
    | .ok v => if isCompanyTag v then .ok (some r) else findCompany tail

/-- The value of the customer lookup
`webhookEstimate.related?.find((r) => r.type === "company")?.id` on the
runs where it does not throw: the non-throwing projection of `companyIdE`
below (`companyIdE_ok` proves the agreement). Null and undefined elements
are skipped here, and a non-array `related` yields `undefined`; the
pipeline itself uses the throwing version. -/
def companyId (raw : RawObj) : JsValue :=
  match jsGet raw "related" with
  | .arr rs =>
    match rs.find? (fun r => isCompanyTag (jsMember r "type")) with
    | some r => jsMember r "id"
    | none => .undefined
  | _ => .undefined

/-- Embedding of the customer lookup
`webhookEstimate.related?.find((r) => r.type === "company")?.id` with
JavaScript error semantics: a null or undefined `related` short-circuits to
undefined through the optional chaining; an array is scanned by the find
callback, which throws a TypeError on a null or undefined element; any
other `related` value makes the `.find` call itself throw, since only
arrays carry that method. When the find returns no element, the trailing
optional chaining yields undefined. -/
def companyIdE (raw : RawObj) : Except String JsValue :=
  match jsGet raw "related" with
  | .null => .ok .undefined
  | .undefined => .ok .undefined
  | .arr rs =>
    match findCompany rs with
    | .error m => .error m
    | .ok none => .ok .undefined
    | .ok (some r) => jsMemberE r "id"
  | _ => .error "related.find is not a function"

/-- The `invoiceData` object literal of `createInvoiceFromEstimate` in
worker.js, in its source order. -/
def invoiceData (full : FullEstimate) (raw : RawObj) (clientId : JsValue) : RawObj :=
  [("subject",
    if jsTruthy (jsGet raw "subject") then jsGet raw "subject"
    else .str ("Facture - " ++ jsToString (jsGet raw "number"))),
   ("currency",
    if jsTruthy (jsGet raw "currency") then jsGet raw "currency" else .str "EUR"),
   ("parent", .obj [("type", .str "estimate"), ("id", .num full.id)]),
   ("related", .arr [.obj [("id", clientId), ("type", .str "company")]]),
   ("rows", .arr ((transformEstimateItemsToInvoiceRows full.rows).map invoiceRowToJs))]

/-- The keys of an object, in order. -/
def objKeys (o : RawObj) : List String := o.map Prod.fst

/-- Override an entry of the first spread operand with the value the second
operand gives its key, when it has one. -/
def overrideWith (b : RawObj) (kv : String × JsValue) : String × JsValue :=
  match b.find? (fun kv2 => kv2.1 == kv.1) with
  | some kv2 => (kv.1, kv2.2)
  | none => kv

/-- Object spread `\x7b...a, ...b\x7d`: keys of `a` keep their position but
take the value from `b` when `b` also has the key; keys only in `b` follow
in the order of `b`. -/
def mergeObj (a b : RawObj) : RawObj :=
  a.map (overrideWith b) ++ b.filter (fun kv => !(decide (kv.1 ∈ objKeys a)))

/-- The `finalInvoiceData` POST body of `createInvoiceFromEstimate`:
the cleaned webhook estimate spread first, overridden by `invoiceData`. -/
def finalInvoiceData (full : FullEstimate) (raw : RawObj) (clientId : JsValue) : RawObj :=
  mergeObj (cleanDataForApi raw []) (invoiceData full raw clientId)

/-- Failure of a `makeApiCall` invocation, as thrown to the job. -/
inductive ApiFailure where
  | httpError (status : Nat) (body : String)
  | netError (msg : String)

/-- An error failing the job. -/
inductive JobError where
  | typeErr (msg : String)
  | noClient
  | apiError (e : ApiFailure)

/-- One outbound API call of the worker (the trace the claims count). -/
inductive ApiCall where
  | getEstimate (id : JsValue)
  | postInvoice (payload : RawObj)

/-- The inbound event as destructured by `processEvent`. -/
structure WebhookEvent where
  eventType : String
  relatedtype : String
  relatedobject : Option RawObj

/-- Oracle scripting the two effectful API calls of a job: the outcome of
the estimate GET and of the invoice POST (each already carrying the retry
behaviour of `makeApiCall` inside its verdict). -/
structure ApiEnv where
  fetchResult : Except ApiFailure FullEstimate
  postResult : Except ApiFailure RawObj

/-- Embedding of `isEstimateAccepted` of worker.js: the status string is a
member of the fixed acceptance list. A non-string status never matches. -/
def isEstimateAccepted (raw : RawObj) : Bool :=
  match jsGet raw "status" with
  | .str s => ["accepted", "won", "signed"].contains s
  | _ => false

/-- Embedding of `createInvoiceFromEstimate(fullEstimate, webhookEstimate)`
of worker.js: resolve the company from the webhook payload with the
throwing lookup (a TypeError thrown there fails the job before any POST),
fail with the client-not-found error when the resolved id is falsy,
otherwise POST the merged body. Returns the outcome and the API calls
performed inside this function. -/
def createInvoiceFromEstimate (env : ApiEnv) (full : FullEstimate) (raw : RawObj) :
    Except JobError Unit × List ApiCall :=
  match companyIdE raw with
  | .error m => (.error (.typeErr m), [])
  | .ok clientId =>
    if jsTruthy clientId then
      let payload := finalInvoiceData full raw clientId
      match env.postResult with
      | .ok _ => (.ok (), [.postInvoice payload])
      | .error e => (.error (.apiError e), [.postInvoice payload])
    else (.error .noClient, [])

/-- Embedding of `handleEstimateModification(estimate)` of worker.js: the
acceptance test runs on the webhook payload; only when it passes is the
full resource fetched and the invoice created from it. -/
def handleEstimateModification (env : ApiEnv) (raw : RawObj) :
    Except JobError Unit × List ApiCall :=
  if isEstimateAccepted raw then
    match env.fetchResult with
    | .ok full =>
      let r := createInvoiceFromEstimate env full raw
      (r.1, .getEstimate (jsGet raw "id") :: r.2)
    | .error e => (.error (.apiError e), [.getEstimate (jsGet raw "id")])
  else (.ok (), [])

/-- Embedding of `processEvent(event)` of worker.js: only the pair
relatedtype "estimate" with eventType "docslog" is handled; every other
combination is logged and consumed without effect. A relevant event with a
missing relatedobject fails on the `estimate.id` property access. -/
def processEvent (env : ApiEnv) (ev : WebhookEvent) :
    Except JobError Unit × List ApiCall :=
  if ev.relatedtype = "estimate" ∧ ev.eventType = "docslog" then
    match ev.relatedobject with
    | some raw => handleEstimateModification env raw
    | none => (.error (.typeErr "cannot read properties of undefined"), [])
  else (.ok (), [])

/-- The invoice-creation POST payloads of a call trace. -/
def postsOf (calls : List ApiCall) : List RawObj :=
  calls.filterMap (fun c =>
    match c with
    | .postInvoice p => some p
    | _ => none)

/-- Outcome of the enqueue into the durable queue, scripted for the gate. -/
inductive EnqueueOutcome where
  | ok
  | failed (msg : String)

/-- An inbound webhook request: the signature header (possibly absent) and
the parsed body. -/
structure GateRequest where
  signatureHeader : Option String
  body : RawObj

/-- What the gate did: the HTTP status of its reply and the events it
enqueued. -/
structure GateResult where
  status : Nat
  enqueuedEvents : List RawObj

/-- Embedding of the `app.post("/webhook/sellsy")` handler of the gate
source present in the repository: the signature validation is commented out
there, so the request signature header is never consulted; the body is
enqueued, and the reply is 200 both on success and (through the catch
block) when the enqueue fails. -/
def webhookGate (enq : EnqueueOutcome) (req : GateRequest) : GateResult :=
  match enq with
  | .ok => { status := 200, enqueuedEvents := [req.body] }
  | .failed _ => { status := 200, enqueuedEvents := [] }

/-- State of `SellsyApiClient` token handling: the cached token and expiry
instant (milliseconds), the in-flight refresh promise (by identifier), and
the number of credential exchanges started. -/
structure TMState where
  token : Option String
  tokenExpiry : Option Int
  refreshPromise : Option Nat
  exchangeCount : Nat

/-- Embedding of the expiry test
`!this.tokenExpiry \x7c\x7c Date.now() >= this.tokenExpiry - 60000`. -/
def tmIsExpired (now : Int) (s : TMState) : Bool :=
  match s.tokenExpiry with
  | none => true
  | some e => decide (now ≥ e - 60000)

/-- Result of the synchronous prologue of one `getToken` call. -/
inductive GetTokenOutcome where
  | cached (t : String)
  | awaiting (promiseId : Nat)

/-- The refresh branch of `getToken`: attach to the in-flight refresh if
there is one, otherwise start a new one (one more credential exchange,
identified by the running count). -/
def tmRefreshPath (s : TMState) : GetTokenOutcome × TMState :=
  match s.refreshPromise with
  | some p => (.awaiting p, s)
  | none =>
    (.awaiting s.exchangeCount,
     { s with refreshPromise := some s.exchangeCount,
              exchangeCount := s.exchangeCount + 1 })

/-- Embedding of the synchronous prologue of
`getToken(forceRefresh)`: refresh when the token is absent, expired within
the 60 second margin, or the refresh is forced; otherwise hand out the
cached token. -/
def getTokenStep (now : Int) (forceRefresh : Bool) (s : TMState) :
    GetTokenOutcome × TMState :=
  match s.token with
  | some t =>
    if tmIsExpired now s || forceRefresh then tmRefreshPath s
    else (.cached t, s)
  | none => tmRefreshPath s

/-- N `getToken()` calls whose synchronous prologues all run before the
refresh resolves (the event loop runs each prologue atomically). -/
def runGetTokens (now : Int) (n : Nat) (s : TMState) :
    List GetTokenOutcome × TMState :=
  match n with
  | 0 => ([], s)
  | m + 1 =>
    let step := getTokenStep now false s
    let rest := runGetTokens now m step.2
    (step.1 :: rest.1, rest.2)

/-- A fresh client: no token, no expiry, no in-flight refresh. -/
def initialTokenState : TMState :=
  { token := none, tokenExpiry := none, refreshPromise := none, exchangeCount := 0 }

/-- Outcome of one scripted `fetch` inside `makeApiCall`: a response with a
status and body text, or a thrown network error. -/
inductive FetchOutcome where
  | resp (status : Nat) (body : String)
  | netError (msg : String)

/-- Result of a `makeApiCall` run: the parsed success body, a thrown
failure, or the undefined value produced when the while loop exits without
returning. -/
inductive CallOutcome where
  | ok (body : String)
  | thrown (e : ApiFailure)
  | undef

/-- The retry loop of `makeApiCall`, with `remaining` the attempts left
(`maxRetries - attempt`). Components of the result: the outcome, the number
of fetches performed, the number of token refreshes triggered. On a 401 the
attempt counter advances and the refresh is forced for the rest of the
call; on another non-success status or a thrown fetch error the attempt
counter advances and, when the budget is spent, the error of the last
attempt (carrying its status and body) is thrown. After the first
iteration a valid token is always in hand, so a refresh happens exactly
when it is forced or the initial token was invalid. -/
def callLoop (remaining : Nat) (forceRefresh : Bool) (tokenValid : Bool)
    (responses : List FetchOutcome) : CallOutcome × Nat × Nat :=
  match remaining with
  | 0 => (.undef, 0, 0)
  | r + 1 =>
    let didRefresh : Nat := if forceRefresh || !tokenValid then 1 else 0
    match responses with
    | [] =>
      if r = 0 then (.thrown (.netError "no response"), 1, didRefresh)
      else
        let rest := callLoop r forceRefresh true []
        (rest.1, rest.2.1 + 1, rest.2.2 + didRefresh)
    | o :: tail =>
      match o with
      | .resp s body =>
        if s = 401 then
          let rest := callLoop r true true tail
          (rest.1, rest.2.1 + 1, rest.2.2 + didRefresh)
        else if 200 ≤ s ∧ s < 300 then (.ok body, 1, didRefresh)
        else if r = 0 then (.thrown (.httpError s body), 1, didRefresh)
        else
          let rest := callLoop r forceRefresh true tail
          (rest.1, rest.2.1 + 1, rest.2.2 + didRefresh)
      | .netError m =>
        if r = 0 then (.thrown (.netError m), 1, didRefresh)
        else
          let rest := callLoop r forceRefresh true tail
          (rest.1, rest.2.1 + 1, rest.2.2 + didRefresh)

/-- Embedding of `makeApiCall` of worker.js: run the retry loop with the
full attempt budget, no forced refresh initially, and `tokenValid` telling
whether the cached token is valid at entry. -/
def makeApiCall (maxRetries : Nat) (tokenValid : Bool)
    (responses : List FetchOutcome) : CallOutcome × Nat × Nat :=
  callLoop maxRetries false tokenValid responses

/-- C2 counterexample: a request whose signature header is absent is
answered 200 (not 401) and its body is enqueued, because the gate present
in the sources has the signature validation commented out. -/
theorem spec_C2_counterexample :
    (webhookGate EnqueueOutcome.ok { signatureHeader := none, body := [] }).status = 200 ∧
    (webhookGate EnqueueOutcome.ok { signatureHeader := none, body := [] }).status ≠ 401 ∧
    (webhookGate EnqueueOutcome.ok { signatureHeader := none, body := [] }).enqueuedEvents = [[]] :=
  ⟨rfl, by decide, rfl⟩

/-- C2 (amended): the gate performs no signature check at all; every
request, whatever its signature header, is answered 200, and its body is
enqueued whenever the enqueue operation succeeds. -/
theorem spec_C2_amended (enq : EnqueueOutcome) (req : GateRequest) :
    (webhookGate enq req).status = 200 ∧
    (webhookGate EnqueueOutcome.ok req).enqueuedEvents = [req.body] := by
  cases enq <;> exact ⟨rfl, rfl⟩

/-- C9: the gate responds 200 to every request, both when the enqueue
succeeds and when it fails; downstream errors are swallowed by the catch
block and never change the HTTP response. -/
theorem spec_C9 (req : GateRequest) (m : String) :
    (webhookGate (EnqueueOutcome.failed m) req).status = 200 ∧
    (webhookGate EnqueueOutcome.ok req).status = 200 :=
  ⟨rfl, rfl⟩

/-- C3: an event whose relatedtype and eventType are not exactly the pair
"estimate" and "docslog" terminates successfully with no outbound API call
and no error. -/
theorem spec_C3 (env : ApiEnv) (ev : WebhookEvent)
    (h : ¬(ev.relatedtype = "estimate" ∧ ev.eventType = "docslog")) :
    processEvent env ev = (Except.ok (), []) := by
  unfold processEvent
  rw [if_neg h]

/-- C3 witness: a concrete irrelevant event (an invoice docslog) is
consumed with no calls and no error. -/
theorem spec_C3_witness :
    processEvent
      { fetchResult := Except.ok { id := 1, status := "draft", rows := [] },
        postResult := Except.ok [] }
      { eventType := "docslog", relatedtype := "invoice", relatedobject := none } =
      (Except.ok (), []) :=
  spec_C3 _ _ (by decide)

/-- Non-throwing member access agrees with its total projection. -/
theorem jsMemberE_ok (v : JsValue) (k : String) (w : JsValue)
    (h : jsMemberE v k = Except.ok w) : jsMember v k = w := by
  cases v with
  | null => simp [jsMemberE] at h
  | undefined => simp [jsMemberE] at h
  | obj fields => simp [jsMemberE] at h; exact h
  | bool b => simp [jsMemberE] at h; exact h
  | num n => simp [jsMemberE] at h; exact h
  | str s => simp [jsMemberE] at h; exact h
  | arr es => simp [jsMemberE] at h; exact h

/-- When the find callback scan does not throw, it finds exactly what the
total scan (which skips nullish elements) finds. -/
theorem findCompany_ok (rs : List JsValue) (res : Option JsValue)
    (h : findCompany rs = Except.ok res) :
    rs.find? (fun r => isCompanyTag (jsMember r "type")) = res := by
  induction rs with
  | nil =>
    simp [findCompany] at h
    simp [h]
  | cons r tail ih =>
    cases hm : jsMemberE r "type" with
    | error m => simp [findCompany, hm] at h
    | ok v =>
      have hjm : jsMember r "type" = v := jsMemberE_ok r "type" v hm
      by_cases htag : isCompanyTag v = true
      · simp [findCompany, hm, htag] at h
        simp [List.find?, hjm, htag, h]
      · have htag2 : isCompanyTag v = false := by
          cases hc : isCompanyTag v with
          | false => rfl
          | true => exact absurd hc htag
        simp [findCompany, hm, htag2] at h
        simp [List.find?, hjm, htag2]
        exact ih h

/-- When the throwing customer lookup does not throw, it resolves exactly
the value of the total lookup. -/
theorem companyIdE_ok (raw : RawObj) (v : JsValue)
    (h : companyIdE raw = Except.ok v) : companyId raw = v := by
  unfold companyIdE at h
  unfold companyId
  cases hrel : jsGet raw "related" with
  | null =>
    rw [hrel] at h
    simp at h
    exact h
  | undefined =>
    rw [hrel] at h
    simp at h
    exact h
  | arr rs =>
    rw [hrel] at h
    have h2 : (match findCompany rs with
        | Except.error m => (Except.error m : Except String JsValue)
        | Except.ok none => Except.ok JsValue.undefined
        | Except.ok (some r) => jsMemberE r "id") = Except.ok v := h
    show (match rs.find? (fun r => isCompanyTag (jsMember r "type")) with
      | some r => jsMember r "id"
      | none => JsValue.undefined) = v
    cases hf : findCompany rs with
    | error m =>
      rw [hf] at h2
      simp at h2
    | ok res =>
      rw [hf] at h2
      cases res with
      | none =>
        simp at h2
        rw [findCompany_ok rs none hf, h2]
      | some r =>
        rw [findCompany_ok rs (some r) hf]
        exact jsMemberE_ok r "id" v h2
  | bool b => rw [hrel] at h; simp at h
  | num n => rw [hrel] at h; simp at h
  | str s => rw [hrel] at h; simp at h
  | obj fields => rw [hrel] at h; simp at h

/-- C4 counterexample: a relevant event (estimate docslog) whose webhook
estimate has no related entry of type company does not fail when the
webhook status is not in the acceptance set: the job terminates
successfully with no API call at all, while the claim requires it to fail
with an error. -/
theorem spec_C4_counterexample :
    companyId [("id", JsValue.num 5), ("status", JsValue.str "draft")] =
      JsValue.undefined ∧
    processEvent
      { fetchResult := Except.ok { id := 5, status := "draft", rows := [] },
        postResult := Except.ok [] }
      { eventType := "docslog", relatedtype := "estimate",
        relatedobject := some [("id", JsValue.num 5), ("status", JsValue.str "draft")] } =
      (Except.ok (), []) :=
  ⟨rfl, rfl⟩

/-- C4 (amended): for every relevant event whose webhook estimate status is
in the acceptance set and whose payload has no resolvable company
reference, the job fails with an error and no invoice-creation POST is
made before failing. -/
theorem spec_C4_amended (env : ApiEnv) (ev : WebhookEvent) (raw : RawObj)
    (hrt : ev.relatedtype = "estimate") (het : ev.eventType = "docslog")
    (hobj : ev.relatedobject = some raw)
    (hacc : isEstimateAccepted raw = true)
    (hclient : jsTruthy (companyId raw) = false) :
    (∃ e, (processEvent env ev).1 = Except.error e) ∧
    postsOf (processEvent env ev).2 = [] := by
  cases hfetch : env.fetchResult with
  | error e =>
    simp [processEvent, hrt, het, hobj, handleEstimateModification, hacc, hfetch, postsOf]
  | ok full =>
    cases hcid : companyIdE raw with
    | error m =>
      simp [processEvent, hrt, het, hobj, handleEstimateModification, hacc, hfetch,
        createInvoiceFromEstimate, hcid, postsOf]
    | ok v =>
      have hv : jsTruthy v = false := by
        rw [companyIdE_ok raw v hcid] at hclient
        exact hclient
      simp [processEvent, hrt, het, hobj, handleEstimateModification, hacc, hfetch,
        createInvoiceFromEstimate, hcid, hv, postsOf]

/-- C4 witness: a concrete accepted estimate whose related list has no
company entry makes the job fail with no invoice POST. -/
theorem spec_C4_amended_witness :
    (∃ e,
      (processEvent
        { fetchResult := Except.ok { id := 9, status := "won", rows := [] },
          postResult := Except.ok [] }
        { eventType := "docslog", relatedtype := "estimate",
          relatedobject := some
            [("id", JsValue.num 9), ("status", JsValue.str "won"),
             ("related", JsValue.arr [JsValue.obj
               [("type", JsValue.str "individual"), ("id", JsValue.num 3)]])] }).1 =
        Except.error e) ∧
    postsOf
      (processEvent
        { fetchResult := Except.ok { id := 9, status := "won", rows := [] },
          postResult := Except.ok [] }
        { eventType := "docslog", relatedtype := "estimate",
          relatedobject := some
            [("id", JsValue.num 9), ("status", JsValue.str "won"),
             ("related", JsValue.arr [JsValue.obj
               [("type", JsValue.str "individual"), ("id", JsValue.num 3)]])] }).2 = [] :=
  spec_C4_amended _ _ _ rfl rfl rfl rfl rfl

/-- C5: evaluation at the failing input. With the worker's configured
budget of 3 attempts and every attempt answered 401, the loop advances the
attempt counter through its 401 branch until the while condition fails and
`makeApiCall` returns undefined: three fetches, two forced refreshes, and
no error is thrown, although the claim (and the retry design) require an
error carrying the last observed status and body. -/
theorem spec_C5_bug_run :
    makeApiCall 3 true
      [FetchOutcome.resp 401 "unauthorized", FetchOutcome.resp 401 "unauthorized",
       FetchOutcome.resp 401 "unauthorized"] =
      (CallOutcome.undef, 3, 2) :=
  rfl

/-- C6: a call whose first attempt receives 401 and whose second receives
200 performs exactly two fetches (the original and one retried request),
triggers exactly one forced token refresh, and returns the parsed success
body, for any attempt budget of at least 2. -/
theorem spec_C6 (mr : Nat) (h : 2 ≤ mr) (b body : String) :
    makeApiCall mr true [FetchOutcome.resp 401 b, FetchOutcome.resp 200 body] =
      (CallOutcome.ok body, 2, 1) := by
  obtain ⟨m, rfl⟩ : ∃ m, mr = m + 2 := ⟨mr - 2, by omega⟩
  rfl

/-- C6 witness: the 401-then-200 sequence under the worker's configured
budget of 3 attempts. -/
theorem spec_C6_witness :
    makeApiCall 3 true [FetchOutcome.resp 401 "unauthorized", FetchOutcome.resp 200 "invoice"] =
      (CallOutcome.ok "invoice", 2, 1) :=
  spec_C6 3 (by decide) "unauthorized" "invoice"

/-- The state after the first `getToken` call on a fresh client: promise 0
is in flight, one exchange has been started. -/
def afterFirstGetToken : TMState :=
  { token := none, tokenExpiry := none, refreshPromise := some 0, exchangeCount := 1 }

/-- While the single refresh promise 0 is in flight and no token is cached,
every further `getToken` prologue attaches to it and leaves the state
unchanged. -/
theorem runGetTokens_steady (now : Int) (m : Nat) :
    runGetTokens now m afterFirstGetToken =
      (List.replicate m (GetTokenOutcome.awaiting 0), afterFirstGetToken) := by
  induction m with
  | zero => rfl
  | succ k ih =>
    show (GetTokenOutcome.awaiting 0 :: (runGetTokens now k afterFirstGetToken).1,
          (runGetTokens now k afterFirstGetToken).2) = _
    rw [ih]
    rfl

/-- C7: N concurrent `getToken()` calls on a fresh client (no valid token
cached), all arriving before the refresh resolves, start exactly one
credential exchange, and every caller awaits that same in-flight refresh
(promise 0, the single exchange started). -/
theorem spec_C7 (now : Int) (n : Nat) (h : 1 ≤ n) :
    (runGetTokens now n initialTokenState).2.exchangeCount = 1 ∧
    (runGetTokens now n initialTokenState).1 =
      List.replicate n (GetTokenOutcome.awaiting 0) := by
  obtain ⟨m, rfl⟩ : ∃ m, n = m + 1 := ⟨n - 1, by omega⟩
  have hfirst : runGetTokens now (m + 1) initialTokenState =
      (GetTokenOutcome.awaiting 0 :: (runGetTokens now m afterFirstGetToken).1,
       (runGetTokens now m afterFirstGetToken).2) := rfl
  rw [hfirst, runGetTokens_steady]
  exact ⟨rfl, rfl⟩

/-- C7 witness: three concurrent calls on a fresh client give one exchange
and three callers attached to promise 0. -/
theorem spec_C7_witness :
    (runGetTokens 1000 3 initialTokenState).2.exchangeCount = 1 ∧
    (runGetTokens 1000 3 initialTokenState).1 =
      List.replicate 3 (GetTokenOutcome.awaiting 0) :=
  spec_C7 1000 3 (by decide)

/-- C8: a `getToken` prologue that hands out the cached token without
refreshing only does so when the stored expiry lies strictly more than
60000 milliseconds after the current time (hence at least the 60 second
safety margin remains); and whenever no token is cached, or the token is
expired within the margin, or the refresh is forced, the caller is routed
to a refresh (a new one, or the one already in flight) before any token is
handed out. -/
theorem spec_C8 (now : Int) (force : Bool) (s : TMState) :
    (∀ t, (getTokenStep now force s).1 = GetTokenOutcome.cached t →
       ∃ e, s.tokenExpiry = some e ∧ now + 60000 < e) ∧
    ((s.token = none ∨ tmIsExpired now s = true ∨ force = true) →
       ∃ p, (getTokenStep now force s).1 = GetTokenOutcome.awaiting p) := by
  constructor
  · intro t hc
    cases htok : s.token with
    | none =>
      exfalso
      cases hrp : s.refreshPromise <;>
        simp [getTokenStep, htok, tmRefreshPath, hrp] at hc
    | some t0 =>
      cases hexp : s.tokenExpiry with
      | none =>
        exfalso
        have hexpd : tmIsExpired now s = true := by simp [tmIsExpired, hexp]
        cases hrp : s.refreshPromise <;>
          simp [getTokenStep, htok, hexpd, tmRefreshPath, hrp] at hc
      | some e =>
        by_cases hm : now ≥ e - 60000
        · exfalso
          have hexpd : tmIsExpired now s = true := by simp [tmIsExpired, hexp, hm]
          cases hrp : s.refreshPromise <;>
            simp [getTokenStep, htok, hexpd, tmRefreshPath, hrp] at hc
        · exact ⟨e, rfl, by omega⟩
  · intro hcond
    cases htok : s.token with
    | none =>
      cases hrp : s.refreshPromise with
      | none =>
        exact ⟨s.exchangeCount, by simp [getTokenStep, htok, tmRefreshPath, hrp]⟩
      | some p =>
        exact ⟨p, by simp [getTokenStep, htok, tmRefreshPath, hrp]⟩
    | some t0 =>
      have href : (tmIsExpired now s || force) = true := by
        rcases hcond with hn | he | hf
        · rw [htok] at hn
          exact Option.noConfusion hn
        · simp [he]
        · simp [hf]
      cases hrp : s.refreshPromise with
      | none =>
        exact ⟨s.exchangeCount, by simp [getTokenStep, htok, href, tmRefreshPath, hrp]⟩
      | some p =>
        exact ⟨p, by simp [getTokenStep, htok, href, tmRefreshPath, hrp]⟩

/-- C8 witness: a client holding a token expiring well beyond the margin
hands it out without refreshing, and its expiry clears the margin; a fresh
client with no token is routed to a refresh. -/
theorem spec_C8_witness :
    (∃ e, (⟨some "tok", some 10000000, none, 0⟩ : TMState).tokenExpiry = some e ∧
       (0 : Int) + 60000 < e) ∧
    (∃ p, (getTokenStep 0 false initialTokenState).1 = GetTokenOutcome.awaiting p) :=
  ⟨(spec_C8 0 false ⟨some "tok", some 10000000, none, 0⟩).1 "tok" rfl,
   (spec_C8 0 false initialTokenState).2 (Or.inl rfl)⟩

/-- Membership characterization of `cleanDataForApi`: an entry survives
exactly when it was in the input, its value passes the falsy filter, and
its key is outside the removal set. -/
theorem mem_cleanDataForApi (data : RawObj) (extra : List String) (k : String) (v : JsValue) :
    (k, v) ∈ cleanDataForApi data extra ↔
      (k, v) ∈ data ∧ jsKept v = true ∧ k ∉ defaultPropertiesToRemove ++ extra := by
  simp [cleanDataForApi, List.mem_filter, and_assoc]

/-- A key of the removal set never survives `cleanDataForApi`. -/
theorem not_mem_objKeys_cleanDataForApi (data : RawObj) (extra : List String) (k : String)
    (hk : k ∈ defaultPropertiesToRemove) :
    k ∉ objKeys (cleanDataForApi data extra) := by
  intro hmem
  rcases List.mem_map.1 hmem with ⟨⟨k1, v1⟩, hkv, hfst⟩
  cases hfst
  rcases (mem_cleanDataForApi data extra k1 v1).1 hkv with ⟨-, -, hnot⟩
  exact hnot (List.mem_append_left _ hk)

/-- Overriding keeps the key of the entry. -/
theorem overrideWith_fst (b : RawObj) (kv : String × JsValue) :
    (overrideWith b kv).1 = kv.1 := by
  unfold overrideWith
  cases b.find? (fun kv2 => kv2.1 == kv.1) <;> rfl

/-- The mapped left operand of a spread keeps its keys. -/
theorem objKeys_map_overrideWith (a b : RawObj) :
    objKeys (a.map (overrideWith b)) = objKeys a := by
  induction a with
  | nil => rfl
  | cons kv tail ih =>
    show (overrideWith b kv).1 :: objKeys (tail.map (overrideWith b)) = kv.1 :: objKeys tail
    rw [overrideWith_fst, ih]

/-- Every key of a spread comes from one of the two operands. -/
theorem mem_objKeys_mergeObj (a b : RawObj) (k : String)
    (h : k ∈ objKeys (mergeObj a b)) : k ∈ objKeys a ∨ k ∈ objKeys b := by
  unfold mergeObj at h
  unfold objKeys at h
  rw [List.map_append] at h
  rcases List.mem_append.1 h with h1 | h2
  · left
    exact (objKeys_map_overrideWith a b) ▸ h1
  · right
    rcases List.mem_map.1 h2 with ⟨kv, hkv, hfst⟩
    exact List.mem_map.2 ⟨kv, (List.mem_filter.1 hkv).1, hfst⟩

/-- Member access skips an entry with a different key. -/
theorem jsGet_cons_of_ne (kv : String × JsValue) (tail : RawObj) (k : String)
    (h : ¬kv.1 = k) : jsGet (kv :: tail) k = jsGet tail k := by
  unfold jsGet
  rw [List.find?_cons_of_neg]
  simp [h]

/-- Member access passes over a prefix that does not hold the key. -/
theorem jsGet_append_of_not_mem (xs ys : RawObj) (k : String)
    (h : k ∉ objKeys xs) : jsGet (xs ++ ys) k = jsGet ys k := by
  induction xs with
  | nil => rfl
  | cons kv tail ih =>
    have h1 : ¬kv.1 = k := fun he => h (by simp [objKeys, he])
    have h2 : k ∉ objKeys tail := fun hm => h (List.mem_cons_of_mem _ hm)
    rw [List.cons_append, jsGet_cons_of_ne _ _ _ h1, ih h2]

/-- Filtering with a predicate that keeps every entry carrying the key
leaves member access at that key unchanged. -/
theorem jsGet_filter (b : RawObj) (p : String × JsValue → Bool) (k : String)
    (hp : ∀ kv, kv.1 = k → p kv = true) :
    jsGet (b.filter p) k = jsGet b k := by
  induction b with
  | nil => rfl
  | cons kv tail ih =>
    by_cases hk : kv.1 = k
    · rw [List.filter_cons_of_pos (hp kv hk)]
      unfold jsGet
      rw [List.find?_cons_of_pos, List.find?_cons_of_pos] <;> simp [hk]
    · cases hpkv : p kv with
      | true =>
        rw [List.filter_cons_of_pos hpkv, jsGet_cons_of_ne _ _ _ hk, ih,
          jsGet_cons_of_ne _ _ _ hk]
      | false =>
        rw [List.filter_cons_of_neg (by simp [hpkv]), ih, jsGet_cons_of_ne _ _ _ hk]

/-- Member access on a spread at a key absent from the left operand reads
the right operand. -/
theorem jsGet_mergeObj_right (a b : RawObj) (k : String)
    (h : k ∉ objKeys a) : jsGet (mergeObj a b) k = jsGet b k := by
  unfold mergeObj
  rw [jsGet_append_of_not_mem _ _ _ (by rw [objKeys_map_overrideWith]; exact h)]
  exact jsGet_filter b _ k (fun kv hkv => by simp [hkv, h])

/-- The keys of the worker's `invoiceData` literal, in order. -/
theorem objKeys_invoiceData (full : FullEstimate) (raw : RawObj) (cid : JsValue) :
    objKeys (invoiceData full raw cid) =
      ["subject", "currency", "parent", "related", "rows"] := rfl

/-- A key that the cleaning removes and that `invoiceData` does not set is
absent from the merged POST body. -/
theorem removed_not_in_finalInvoiceData (full : FullEstimate) (raw : RawObj) (cid : JsValue)
    (k : String) (hk : k ∈ defaultPropertiesToRemove)
    (hk2 : k ∉ (["subject", "currency", "parent", "related", "rows"] : List String)) :
    k ∉ objKeys (finalInvoiceData full raw cid) := by
  intro hmem
  unfold finalInvoiceData at hmem
  rcases mem_objKeys_mergeObj _ _ _ hmem with h | h
  · exact not_mem_objKeys_cleanDataForApi raw [] k hk h
  · rw [objKeys_invoiceData] at h
    exact hk2 h

/-- C10: `cleanDataForApi` returns exactly the input entries whose value is
neither null, undefined nor the empty string and whose key lies outside the
fixed removal set (which contains id, number, status, rows and related),
with values unchanged; consequently the merged invoice-creation payload
never carries an id, number or status entry taken from the webhook
estimate. -/
theorem spec_C10 :
    (∀ (data : RawObj) (k : String) (v : JsValue),
       (k, v) ∈ cleanDataForApi data [] ↔
         (k, v) ∈ data ∧ jsKept v = true ∧ k ∉ defaultPropertiesToRemove) ∧
    (∀ (full : FullEstimate) (raw : RawObj) (cid : JsValue),
       "id" ∉ objKeys (finalInvoiceData full raw cid) ∧
       "number" ∉ objKeys (finalInvoiceData full raw cid) ∧
       "status" ∉ objKeys (finalInvoiceData full raw cid)) := by
  constructor
  · intro data k v
    simpa using mem_cleanDataForApi data [] k v
  · intro full raw cid
    exact ⟨removed_not_in_finalInvoiceData full raw cid "id" (by decide) (by decide),
           removed_not_in_finalInvoiceData full raw cid "number" (by decide) (by decide),
           removed_not_in_finalInvoiceData full raw cid "status" (by decide) (by decide)⟩

/-- The merged POST body always carries, under the key rows, exactly the
mapped rows of the re-fetched estimate: the cleaning removed any webhook
rows entry, so the entry set by `invoiceData` is the one read back. -/
theorem jsGet_finalInvoiceData_rows (full : FullEstimate) (raw : RawObj) (cid : JsValue) :
    jsGet (finalInvoiceData full raw cid) "rows" =
      JsValue.arr ((transformEstimateItemsToInvoiceRows full.rows).map invoiceRowToJs) := by
  unfold finalInvoiceData
  rw [jsGet_mergeObj_right _ _ _
    (not_mem_objKeys_cleanDataForApi raw [] "rows" (by decide))]
  rfl

/-- C1 counterexample: a job whose event is a relevant estimate docslog,
whose authoritative re-fetched resource has status won, and whose webhook
payload (with a resolvable company and successful scripted API calls)
carries status draft, performs zero invoice-creation POSTs and terminates
successfully — the worker decides on the stale webhook status and never
reads the re-fetched status, while the claim requires exactly one POST
whenever the resource status is won. -/
theorem spec_C1_counterexample :
    FullEstimate.status { id := 1, status := "won", rows := [] } = "won" ∧
    processEvent
      { fetchResult := Except.ok { id := 1, status := "won", rows := [] },
        postResult := Except.ok [] }
      { eventType := "docslog", relatedtype := "estimate",
        relatedobject := some
          [("id", JsValue.num 1), ("status", JsValue.str "draft"),
           ("related", JsValue.arr [JsValue.obj
             [("type", JsValue.str "company"), ("id", JsValue.num 7)]])] } =
      (Except.ok (), []) :=
  ⟨rfl, rfl⟩

/-- C1 (amended): the acceptance decision is taken on the webhook payload
status, not on the re-fetched resource status. For a relevant event whose
webhook payload status is won, when the resource fetch succeeds and the
payload's company lookup completes without throwing and resolves a truthy
id, processing performs exactly one POST to the invoice-creation endpoint
and the rows of its payload are exactly the mapped rows of the re-fetched
resource; for a relevant event whose webhook payload status is draft,
processing performs zero invoice-creation calls, whatever the re-fetched
resource would say. -/
theorem spec_C1_amended (env : ApiEnv) (ev : WebhookEvent) (raw : RawObj)
    (full : FullEstimate) (cid : JsValue)
    (hrt : ev.relatedtype = "estimate") (het : ev.eventType = "docslog")
    (hobj : ev.relatedobject = some raw) :
    (jsGet raw "status" = JsValue.str "won" → env.fetchResult = Except.ok full →
       companyIdE raw = Except.ok cid → jsTruthy cid = true →
       postsOf (processEvent env ev).2 = [finalInvoiceData full raw cid] ∧
       jsGet (finalInvoiceData full raw cid) "rows" =
         JsValue.arr ((transformEstimateItemsToInvoiceRows full.rows).map invoiceRowToJs)) ∧
    (jsGet raw "status" = JsValue.str "draft" →
       postsOf (processEvent env ev).2 = []) := by
  constructor
  · intro hstatus hfetch hcid hclient
    have hacc : isEstimateAccepted raw = true := by
      unfold isEstimateAccepted
      rw [hstatus]
      rfl
    refine ⟨?_, jsGet_finalInvoiceData_rows full raw cid⟩
    cases hpost : env.postResult with
    | ok inv =>
      simp [processEvent, hrt, het, hobj, handleEstimateModification, hacc, hfetch,
        createInvoiceFromEstimate, hcid, hclient, hpost, postsOf]
    | error e =>
      simp [processEvent, hrt, het, hobj, handleEstimateModification, hacc, hfetch,
        createInvoiceFromEstimate, hcid, hclient, hpost, postsOf]
  · intro hstatus
    have hacc : isEstimateAccepted raw = false := by
      unfold isEstimateAccepted
      rw [hstatus]
      rfl
    simp [processEvent, hrt, het, hobj, handleEstimateModification, hacc, postsOf]

/-- C1 witness: a concrete webhook estimate with status won, one source row
and a company reference yields exactly one POST whose rows are the mapped
rows of the fetched resource; a concrete payload with status draft yields
no POST. -/
theorem spec_C1_amended_witness :
    (postsOf (processEvent
        { fetchResult := Except.ok
            { id := 1, status := "won",
              rows := [{ description := some "widget", quantity := some 2,
                         unitAmount := some 50, unit_amount := none,
                         tax := some 4, tax1 := none,
                         product := some { id := 8, reference := some "W-8" } }] },
          postResult := Except.ok [] }
        { eventType := "docslog", relatedtype := "estimate",
          relatedobject := some
            [("id", JsValue.num 1), ("status", JsValue.str "won"),
             ("related", JsValue.arr [JsValue.obj
               [("type", JsValue.str "company"), ("id", JsValue.num 7)]])] }).2 =
      [finalInvoiceData
        { id := 1, status := "won",
          rows := [{ description := some "widget", quantity := some 2,
                     unitAmount := some 50, unit_amount := none,
                     tax := some 4, tax1 := none,
                     product := some { id := 8, reference := some "W-8" } }] }
        [("id", JsValue.num 1), ("status", JsValue.str "won"),
         ("related", JsValue.arr [JsValue.obj
           [("type", JsValue.str "company"), ("id", JsValue.num 7)]])]
        (JsValue.num 7)]) ∧
    (postsOf (processEvent
        { fetchResult := Except.ok { id := 2, status := "won", rows := [] },
          postResult := Except.ok [] }
        { eventType := "docslog", relatedtype := "estimate",
          relatedobject := some [("id", JsValue.num 2), ("status", JsValue.str "draft")] }).2 =
      []) :=
  ⟨((spec_C1_amended
      { fetchResult := Except.ok
          { id := 1, status := "won",
            rows := [{ description := some "widget", quantity := some 2,
                       unitAmount := some 50, unit_amount := none,
                       tax := some 4, tax1 := none,
                       product := some { id := 8, reference := some "W-8" } }] },
        postResult := Except.ok [] }
      { eventType := "docslog", relatedtype := "estimate",
        relatedobject := some
          [("id", JsValue.num 1), ("status", JsValue.str "won"),
           ("related", JsValue.arr [JsValue.obj
             [("type", JsValue.str "company"), ("id", JsValue.num 7)]])] }
      [("id", JsValue.num 1), ("status", JsValue.str "won"),
       ("related", JsValue.arr [JsValue.obj
         [("type", JsValue.str "company"), ("id", JsValue.num 7)]])]
      { id := 1, status := "won",
        rows := [{ description := some "widget", quantity := some 2,
                   unitAmount := some 50, unit_amount := none,
                   tax := some 4, tax1 := none,
                   product := some { id := 8, reference := some "W-8" } }] }
      (JsValue.num 7)
      rfl rfl rfl).1 rfl rfl rfl rfl).1,
   (spec_C1_amended _ _
     [("id", JsValue.num 2), ("status", JsValue.str "draft")]
     { id := 2, status := "won", rows := [] }
     JsValue.undefined rfl rfl rfl).2 rfl⟩

end WhSellsy
